import Mathlib

/-!
Verification of the UGV knowledge-graph layer (`create_neo4j.py`).

The repository builds and queries a property graph through a graph database.
We embed the graph state shallowly: a graph is a list of property nodes and a
list of directed property edges.  Each Python method is translated into a pure
Lean function on this state; each Cypher query issued by a method is translated
clause by clause (MATCH = row enumeration over matching bindings, OPTIONAL
MATCH = row preservation with a null binding when nothing matches, UNWIND =
flatMap, WHERE = filter, collect/sum/count = list aggregation that skips null
values, as the query engine does).  Floating-point numbers are modelled as
rationals; Python dictionaries of properties are association lists whose keys
are pairwise distinct at every construction site.
-/

/-- A property value stored on a node or an edge, or returned in a query row.
`nmap` covers the one place the source stores a string-to-float dictionary as a
property value (force/moment limit tables of a mechanical interface);
`vnull` is the query-level null produced by OPTIONAL MATCH and by accessing a
missing property. -/
inductive Val where
  | str : String → Val
  | num : ℚ → Val
  | nmap : List (String × ℚ) → Val
  | vnull : Val
deriving DecidableEq, Repr

/-- A graph node: internal identifier (`id(n)` of the engine), label, and
property bag. -/
structure GNode where
  nid : Nat
  label : String
  props : List (String × Val)
deriving DecidableEq, Repr

/-- Property lookup on a node; a missing key is the engine's null. -/
def GNode.prop (n : GNode) (k : String) : Option Val := n.props.lookup k

/-- Does the node carry the given string property?  Used to embed
`MATCH (n:Label \x7bkey: $value\x7d)` lookups by business id. -/
def GNode.hasStrProp (n : GNode) (k v : String) : Bool :=
  n.prop k == some (.str v)

/-- A directed edge with a relationship type and edge-local properties. -/
structure GEdge where
  relType : String
  src : Nat
  dst : Nat
  props : List (String × Val)
deriving DecidableEq, Repr

/-- The whole graph state.  `nextId` is the internal-identifier counter the
engine draws fresh node ids from. -/
structure Graph where
  nodes : List GNode
  edges : List GEdge
  nextId : Nat
deriving DecidableEq, Repr

/-- The empty database. -/
def Graph.empty : Graph := ⟨[], [], 0⟩

/-- The `Mission_Profile` nodes carrying the given business id. -/
def missionNodes (g : Graph) (mission_id : String) : List GNode :=
  g.nodes.filter fun n =>
    n.label == "Mission_Profile" && n.hasStrProp "mission_id" mission_id

/-- The `UGV_Module` nodes carrying the given business id
(`MATCH (m:UGV_Module \x7bmodule_id: $module_id\x7d)`). -/
def moduleNodes (g : Graph) (module_id : String) : List GNode :=
  g.nodes.filter fun n =>
    n.label == "UGV_Module" && n.hasStrProp "module_id" module_id

/-- The `Base_Chassis` nodes carrying the given business id. -/
def chassisNodes (g : Graph) (chassis_id : String) : List GNode :=
  g.nodes.filter fun n =>
    n.label == "Base_Chassis" && n.hasStrProp "chassis_id" chassis_id

/-- The `Constraint` nodes carrying the given business id. -/
def constraintNodes (g : Graph) (constraint_id : String) : List GNode :=
  g.nodes.filter fun n =>
    n.label == "Constraint" && n.hasStrProp "constraint_id" constraint_id

/-- Embeds `mount_module_on_chassis`: `MATCH` both endpoints by business id
(one row per matching pair of nodes), `CREATE` one `MOUNTED_ON` edge per row
with slot and position as edge properties, and return whether any row
matched. -/
def mount_module_on_chassis (g : Graph) (module_id : String)
    (chassis_id : String) (slot_name : String) (position : ℚ × ℚ × ℚ) :
    Graph × Bool :=
  let rels := (moduleNodes g module_id).flatMap fun m =>
    (chassisNodes g chassis_id).map fun c =>
    (⟨"MOUNTED_ON", m.nid, c.nid,
      [("slot", .str slot_name),
       ("position_x", .num position.1),
       ("position_y", .num position.2.1),
       ("position_z", .num position.2.2)]⟩ : GEdge)
  (⟨g.nodes, g.edges ++ rels, g.nextId⟩, !rels.isEmpty)

/-- Embeds `add_module_to_mission`. -/
def add_module_to_mission (g : Graph) (module_id : String)
    (mission_id : String) : Graph × Bool :=
  let rels := (moduleNodes g module_id).flatMap fun m =>
    (missionNodes g mission_id).map fun mi =>
    (⟨"PART_OF_MISSION", m.nid, mi.nid, []⟩ : GEdge)
  (⟨g.nodes, g.edges ++ rels, g.nextId⟩, !rels.isEmpty)

/-- Embeds `add_constraint_to_module`. -/
def add_constraint_to_module (g : Graph) (module_id : String)
    (constraint_id : String) : Graph × Bool :=
  let rels := (moduleNodes g module_id).flatMap fun m =>
    (constraintNodes g constraint_id).map fun c =>
    (⟨"CONSTRAINED_BY", m.nid, c.nid, []⟩ : GEdge)
  (⟨g.nodes, g.edges ++ rels, g.nextId⟩, !rels.isEmpty)

/-- Embeds `mark_compatible`. -/
def mark_compatible (g : Graph) (module_id_1 : String)
    (module_id_2 : String) : Graph × Bool :=
  let rels := (moduleNodes g module_id_1).flatMap fun m1 =>
    (moduleNodes g module_id_2).map fun m2 =>
    (⟨"COMPATIBLE_WITH", m1.nid, m2.nid, []⟩ : GEdge)
  (⟨g.nodes, g.edges ++ rels, g.nextId⟩, !rels.isEmpty)

/-- Embeds `mark_conflict` (edge-local `reason` property). -/
def mark_conflict (g : Graph) (module_id_1 : String) (module_id_2 : String)
    (reason : String) : Graph × Bool :=
  let rels := (moduleNodes g module_id_1).flatMap fun m1 =>
    (moduleNodes g module_id_2).map fun m2 =>
    (⟨"CONFLICTS_WITH", m1.nid, m2.nid, [("reason", .str reason)]⟩ : GEdge)
  (⟨g.nodes, g.edges ++ rels, g.nextId⟩, !rels.isEmpty)

/-- Rows of the pattern
`MATCH (m:UGV_Module)-[:PART_OF_MISSION]->(mission:Mission_Profile \x7bmission_id: $mission_id\x7d)`:
one `(module, mission)` row per matching edge binding, so a duplicated
membership edge yields a duplicated row. -/
def missionMemberRows (g : Graph) (mission_id : String) :
    List (GNode × GNode) :=
  (g.edges.filter fun e => e.relType == "PART_OF_MISSION").flatMap fun e =>
    (g.nodes.filter fun m =>
      m.label == "UGV_Module" && m.nid == e.src).flatMap fun m =>
      ((missionNodes g mission_id).filter fun mi => mi.nid == e.dst).map
        fun mi => (m, mi)

/-- `sum(m.power_draw_w)` over the rows: the engine's `sum` skips modules
with no such property (their value is null) and returns 0 on no input. -/
def sumPower (rows : List (GNode × GNode)) : ℚ :=
  (rows.filterMap fun r =>
    match r.1.prop "power_draw_w" with
    | some (.num q) => some q
    | _ => none).sum

/-- `collect(m.module_id)` over the rows (collect skips nulls). -/
def collectModuleIds (rows : List (GNode × GNode)) : List Val :=
  rows.filterMap fun r => r.1.prop "module_id"

/-- The two result shapes of `validate_mission_power_budget`: the
`\x7b"status": "invalid", "reason": ...\x7d` dictionary, or the full report
dictionary. -/
inductive PowerBudgetResult where
  | invalid (reason : String)
  | report (mission_name : Val) (total_power_w : ℚ) (total_power_kw : ℚ)
      (budget_kw : ℚ) (num_modules : Nat) (within_budget : Bool)
      (margin_kw : ℚ) (module_ids : List Val)
deriving DecidableEq, Repr

/-- Embeds `validate_mission_power_budget`.  The query aggregates over the
membership rows; with no row the aggregation (which groups by
`mission.mission_name`) returns no result row and the method reports
`invalid`.  Otherwise `total_power_kw`, `within_budget` and `margin_kw` are
computed in Python exactly as written here.  (The grouping key is the mission
name of the matched mission node; we read it off the first row, which is the
single group whenever at most one `Mission_Profile` node carries the id.) -/
def validate_mission_power_budget (g : Graph) (mission_id : String)
    (budget_kw : ℚ) : PowerBudgetResult :=
  match missionMemberRows g mission_id with
  | [] => .invalid "No modules found for mission"
  | r0 :: rest =>
    let rows := r0 :: rest
    let total_power_w := sumPower rows
    let total_power_kw := total_power_w / 1000
    .report ((r0.2.prop "mission_name").getD .vnull) total_power_w
      total_power_kw budget_kw rows.length
      (decide (total_power_kw ≤ budget_kw)) (budget_kw - total_power_kw)
      (collectModuleIds rows)

/-- The `CONFLICTS_WITH` edges from `m1` to `m2`, as the compatibility
query names them in its first OPTIONAL MATCH. -/
def confEdges (g : Graph) (m1 m2 : GNode) : List GEdge :=
  g.edges.filter fun e =>
    e.relType == "CONFLICTS_WITH" && e.src == m1.nid && e.dst == m2.nid

/-- The `COMPATIBLE_WITH` edges from `m1` to `m2`. -/
def compatEdges (g : Graph) (m1 m2 : GNode) : List GEdge :=
  g.edges.filter fun e =>
    e.relType == "COMPATIBLE_WITH" && e.src == m1.nid && e.dst == m2.nid

/-- One entry of the `conflicts` / `compatible_confirmed` lists that the
result-shaping Python of `get_mission_compatibility` would build from a
query row.  No such record is ever produced — see
`get_mission_compatibility`. -/
structure CompatRecord where
  module_1 : Val
  module_2 : Val
  relationship : String
  conflict_reason : Val
deriving DecidableEq, Repr

/-- The dictionary the result-shaping Python of `get_mission_compatibility`
would return.  Never produced — see `get_mission_compatibility`. -/
structure CompatResult where
  total_pairs : Nat
  conflicts : List CompatRecord
  compatible_confirmed : List CompatRecord
  unknown : Nat
  mission_viable : Bool
deriving DecidableEq, Repr

/-- The client-side failure every `get_mission_compatibility` call raises. -/
def compatibilityQueryError : String :=
  "Cypher syntax error: invalid input WHERE after UNWIND"

/-- Embeds `get_mission_compatibility`.  Its statement reads
`UNWIND modules AS m1 UNWIND modules AS m2 WHERE id(m1) < id(m2) ...`.
WHERE is a sub-clause of MATCH, OPTIONAL MATCH and WITH only; standing
directly after UNWIND it is a Cypher syntax error (the legal form would be
`WITH m1, m2 WHERE ...`).  The engine rejects the statement when compiling
it, before touching the graph, so `_execute_query` raises for every input
and none of the result-shaping code after it ever runs: the method fails
identically on every graph and every mission id. -/
def get_mission_compatibility (g : Graph) (mission_id : String) :
    Except String CompatResult :=
  .error compatibilityQueryError

/-- One entry of the `modules` list the result-shaping Python of
`get_mission_manifest` would build.  Never produced — see
`get_mission_manifest`. -/
structure ModuleEntry where
  module_id : Val
  type : Val
  mass_kg : Val
  power_w : Val
  constraints : List Val
deriving DecidableEq, Repr

/-- The two dictionary shapes the Python of `get_mission_manifest` would
return.  Never produced — see `get_mission_manifest`. -/
inductive ManifestResult where
  | not_found
  | result (mission_name : Val) (mission_type : Val) (duration_hours : Val)
      (total_mass_kg : ℚ) (total_power_w : ℚ) (total_power_kw : ℚ)
      (num_modules : Nat) (modules : List ModuleEntry)
deriving DecidableEq, Repr

/-- The client-side failure every `get_mission_manifest` call raises. -/
def manifestQueryError : String :=
  "Cypher error: cannot use aggregate functions inside of aggregate functions"

/-- Embeds `get_mission_manifest`.  Its RETURN clause nests
`collect(DISTINCT c.constraint_id)` inside the outer `collect(\x7b...\x7d)` map
literal.  Cypher forbids an aggregate function inside an aggregate function,
so the engine rejects the statement when compiling it, before touching the
graph.  `_execute_query` therefore raises for every input, and the method
never reaches its own code after the query call — not even the empty-result
check that would produce the not_found dictionary. -/
def get_mission_manifest (g : Graph) (mission_id : String) :
    Except String ManifestResult :=
  .error manifestQueryError

/-- When no `Mission_Profile` node carries the id, the membership pattern has
no row at all. -/
theorem missionMemberRows_eq_nil_of_no_mission (g : Graph) (mission_id : String)
    (h : missionNodes g mission_id = []) :
    missionMemberRows g mission_id = [] := by
  simp [missionMemberRows, h]

/-- C1: for every mission id with at least one linked module and every budget,
`validate_mission_power_budget` returns a report whose `total_power_kw` is
`total_power_w / 1000`, whose `margin_kw` is `budget_kw - total_power_kw`, and
whose `within_budget` is the comparison `total_power_kw ≤ budget_kw`; at the
boundary `total_power_kw = budget_kw` the flag is true. -/
theorem validate_mission_power_budget_report (g : Graph) (mission_id : String)
    (budget_kw : ℚ) (h : missionMemberRows g mission_id ≠ []) :
    (∃ name,
      validate_mission_power_budget g mission_id budget_kw =
        PowerBudgetResult.report name
          (sumPower (missionMemberRows g mission_id))
          (sumPower (missionMemberRows g mission_id) / 1000)
          budget_kw
          (missionMemberRows g mission_id).length
          (decide (sumPower (missionMemberRows g mission_id) / 1000 ≤ budget_kw))
          (budget_kw - sumPower (missionMemberRows g mission_id) / 1000)
          (collectModuleIds (missionMemberRows g mission_id))) ∧
    (sumPower (missionMemberRows g mission_id) / 1000 = budget_kw →
      decide (sumPower (missionMemberRows g mission_id) / 1000 ≤ budget_kw)
        = true) := by
  constructor
  · match hm : missionMemberRows g mission_id with
    | [] => exact absurd hm h
    | r0 :: rest =>
      refine ⟨(r0.2.prop "mission_name").getD .vnull, ?_⟩
      simp [validate_mission_power_budget, hm]
  · intro he
    rw [he]
    simp

/-- Mission with one 120 W module for exercising
`validate_mission_power_budget_report`. -/
def c1Graph : Graph :=
  ⟨[⟨0, "Mission_Profile",
     [("mission_id", .str "MX"), ("mission_name", .str "Recon")]⟩,
    ⟨1, "UGV_Module",
     [("module_id", .str "A"), ("power_draw_w", .num 120)]⟩],
   [⟨"PART_OF_MISSION", 1, 0, []⟩], 2⟩

/-- Concrete instance of `validate_mission_power_budget_report` at a budget
that equals the total power exactly. -/
theorem validate_mission_power_budget_report_witness :
    missionMemberRows c1Graph "MX" ≠ [] ∧
    ((∃ name,
      validate_mission_power_budget c1Graph "MX" (3/25) =
        PowerBudgetResult.report name
          (sumPower (missionMemberRows c1Graph "MX"))
          (sumPower (missionMemberRows c1Graph "MX") / 1000)
          (3/25)
          (missionMemberRows c1Graph "MX").length
          (decide (sumPower (missionMemberRows c1Graph "MX") / 1000 ≤ 3/25))
          (3/25 - sumPower (missionMemberRows c1Graph "MX") / 1000)
          (collectModuleIds (missionMemberRows c1Graph "MX"))) ∧
    (sumPower (missionMemberRows c1Graph "MX") / 1000 = 3/25 →
      decide (sumPower (missionMemberRows c1Graph "MX") / 1000 ≤ 3/25)
        = true)) :=
  ⟨by decide, validate_mission_power_budget_report c1Graph "MX" (3/25) (by decide)⟩

/-- C6: a mission that exists but has zero linked modules yields the explicit
invalid result with reason "No modules found for mission". -/
theorem validate_mission_power_budget_no_modules (g : Graph)
    (mission_id : String) (budget_kw : ℚ)
    (hmission : missionNodes g mission_id ≠ [])
    (hrows : missionMemberRows g mission_id = []) :
    validate_mission_power_budget g mission_id budget_kw =
      PowerBudgetResult.invalid "No modules found for mission" := by
  simp [validate_mission_power_budget, hrows]

/-- Mission node without modules for exercising
`validate_mission_power_budget_no_modules`. -/
def c6Graph : Graph :=
  ⟨[⟨0, "Mission_Profile",
     [("mission_id", .str "ME"), ("mission_name", .str "Bare")]⟩], [], 1⟩

/-- Concrete instance of `validate_mission_power_budget_no_modules`. -/
theorem validate_mission_power_budget_no_modules_witness :
    missionNodes c6Graph "ME" ≠ [] ∧ missionMemberRows c6Graph "ME" = [] ∧
    validate_mission_power_budget c6Graph "ME" 5 =
      PowerBudgetResult.invalid "No modules found for mission" :=
  ⟨by decide, by decide,
   validate_mission_power_budget_no_modules c6Graph "ME" 5 (by decide) (by decide)⟩

/-- C9: an unknown mission id and an existing mission with zero linked
modules produce the very same invalid dictionary: the two situations are
indistinguishable from the result. -/
theorem validate_mission_power_budget_unknown_vs_empty (g1 g2 : Graph)
    (mid1 mid2 : String) (b1 b2 : ℚ)
    (h1 : missionNodes g1 mid1 = [])
    (h2m : missionNodes g2 mid2 ≠ [])
    (h2r : missionMemberRows g2 mid2 = []) :
    validate_mission_power_budget g1 mid1 b1 =
      validate_mission_power_budget g2 mid2 b2 ∧
    validate_mission_power_budget g1 mid1 b1 =
      PowerBudgetResult.invalid "No modules found for mission" := by
  have hr1 := missionMemberRows_eq_nil_of_no_mission g1 mid1 h1
  refine ⟨?_, ?_⟩ <;>
    simp [validate_mission_power_budget, hr1, h2r]

/-- Mission node without modules, for `..._unknown_vs_empty`. -/
def c9Graph : Graph :=
  ⟨[⟨0, "Mission_Profile",
     [("mission_id", .str "M9"), ("mission_name", .str "Idle")]⟩], [], 1⟩

/-- Concrete instance of
`validate_mission_power_budget_unknown_vs_empty`: the empty database with an
unknown id against `c9Graph` with its empty mission. -/
theorem validate_mission_power_budget_unknown_vs_empty_witness :
    missionNodes Graph.empty "NOPE" = [] ∧
    missionNodes c9Graph "M9" ≠ [] ∧
    missionMemberRows c9Graph "M9" = [] ∧
    (validate_mission_power_budget Graph.empty "NOPE" 1 =
      validate_mission_power_budget c9Graph "M9" 2 ∧
    validate_mission_power_budget Graph.empty "NOPE" 1 =
      PowerBudgetResult.invalid "No modules found for mission") :=
  ⟨by decide, by decide, by decide,
   validate_mission_power_budget_unknown_vs_empty Graph.empty c9Graph
     "NOPE" "M9" 1 2 (by decide) (by decide) (by decide)⟩

/-- Mission node with no member modules, for the manifest analysis. -/
def c2Mission : GNode :=
  ⟨0, "Mission_Profile",
   [("mission_id", .str "M1"), ("mission_name", .str "Empty"),
    ("mission_type", .str "recon"), ("duration_hours", .num 2)]⟩

/-- Database holding only `c2Mission`. -/
def c2Graph : Graph := ⟨[c2Mission], [], 1⟩

/-- C2 counterexample: even for an existing mission with zero linked
modules, the manifest call returns no zero-totals dictionary — and an
unknown mission id returns no not_found dictionary: in both concrete cases
the nested-aggregate statement is rejected by the engine and the method
raises instead. -/
theorem get_mission_manifest_error_counterexample :
    get_mission_manifest c2Graph "M1" = Except.error manifestQueryError ∧
    get_mission_manifest c2Graph "NOPE" = Except.error manifestQueryError :=
  ⟨rfl, rfl⟩

/-- C2 (amended): `get_mission_manifest` never returns a manifest.  For
every graph and mission id — existing-and-empty or wholly unknown alike —
the call fails with the engine rejection of its nested aggregate, raised
when the statement is compiled and before the not_found branch could run;
the failure does not depend on the graph or the id. -/
theorem get_mission_manifest_always_error (g g2 : Graph)
    (mission_id mission_id2 : String) :
    get_mission_manifest g mission_id = Except.error manifestQueryError ∧
    get_mission_manifest g mission_id = get_mission_manifest g2 mission_id2 :=
  ⟨rfl, rfl⟩

/-- C8: each relationship-construction operation reports `false` and leaves
the graph unchanged when either endpoint business id resolves to no node, and
creates exactly one directed edge (with its edge-local properties) and
reports `true` when each endpoint resolves to exactly one node. -/
theorem relationship_ops_contract (g : Graph)
    (module_id chassis_id mission_id constraint_id module_id_1 module_id_2
      slot_name reason : String) (position : ℚ × ℚ × ℚ) :
    ((moduleNodes g module_id = [] ∨ chassisNodes g chassis_id = [] →
        mount_module_on_chassis g module_id chassis_id slot_name position =
          (g, false)) ∧
      (∀ m c, moduleNodes g module_id = [m] →
        chassisNodes g chassis_id = [c] →
        mount_module_on_chassis g module_id chassis_id slot_name position =
          (⟨g.nodes,
            g.edges ++ [⟨"MOUNTED_ON", m.nid, c.nid,
              [("slot", .str slot_name),
               ("position_x", .num position.1),
               ("position_y", .num position.2.1),
               ("position_z", .num position.2.2)]⟩],
            g.nextId⟩, true))) ∧
    ((moduleNodes g module_id = [] ∨ missionNodes g mission_id = [] →
        add_module_to_mission g module_id mission_id = (g, false)) ∧
      (∀ m mi, moduleNodes g module_id = [m] →
        missionNodes g mission_id = [mi] →
        add_module_to_mission g module_id mission_id =
          (⟨g.nodes, g.edges ++ [⟨"PART_OF_MISSION", m.nid, mi.nid, []⟩],
            g.nextId⟩, true))) ∧
    ((moduleNodes g module_id = [] ∨ constraintNodes g constraint_id = [] →
        add_constraint_to_module g module_id constraint_id = (g, false)) ∧
      (∀ m c, moduleNodes g module_id = [m] →
        constraintNodes g constraint_id = [c] →
        add_constraint_to_module g module_id constraint_id =
          (⟨g.nodes, g.edges ++ [⟨"CONSTRAINED_BY", m.nid, c.nid, []⟩],
            g.nextId⟩, true))) ∧
    ((moduleNodes g module_id_1 = [] ∨ moduleNodes g module_id_2 = [] →
        mark_compatible g module_id_1 module_id_2 = (g, false)) ∧
      (∀ m1 m2, moduleNodes g module_id_1 = [m1] →
        moduleNodes g module_id_2 = [m2] →
        mark_compatible g module_id_1 module_id_2 =
          (⟨g.nodes, g.edges ++ [⟨"COMPATIBLE_WITH", m1.nid, m2.nid, []⟩],
            g.nextId⟩, true))) ∧
    ((moduleNodes g module_id_1 = [] ∨ moduleNodes g module_id_2 = [] →
        mark_conflict g module_id_1 module_id_2 reason = (g, false)) ∧
      (∀ m1 m2, moduleNodes g module_id_1 = [m1] →
        moduleNodes g module_id_2 = [m2] →
        mark_conflict g module_id_1 module_id_2 reason =
          (⟨g.nodes, g.edges ++ [⟨"CONFLICTS_WITH", m1.nid, m2.nid,
              [("reason", .str reason)]⟩],
            g.nextId⟩, true))) := by
  obtain ⟨ns, es, ni⟩ := g
  refine ⟨⟨?_, ?_⟩, ⟨?_, ?_⟩, ⟨?_, ?_⟩, ⟨?_, ?_⟩, ⟨?_, ?_⟩⟩
  · rintro (h | h) <;> simp [mount_module_on_chassis, h]
  · intro m c hm hc; simp [mount_module_on_chassis, hm, hc]
  · rintro (h | h) <;> simp [add_module_to_mission, h]
  · intro m mi hm hmi; simp [add_module_to_mission, hm, hmi]
  · rintro (h | h) <;> simp [add_constraint_to_module, h]
  · intro m c hm hc; simp [add_constraint_to_module, hm, hc]
  · rintro (h | h) <;> simp [mark_compatible, h]
  · intro m1 m2 h1 h2; simp [mark_compatible, h1, h2]
  · rintro (h | h) <;> simp [mark_conflict, h]
  · intro m1 m2 h1 h2; simp [mark_conflict, h1, h2]

/-- Module node `A` of the relationship-operation example database. -/
def c8Module1 : GNode := ⟨0, "UGV_Module", [("module_id", .str "A")]⟩

/-- Module node `B` of the relationship-operation example database. -/
def c8Module2 : GNode := ⟨1, "UGV_Module", [("module_id", .str "B")]⟩

/-- Chassis node of the relationship-operation example database. -/
def c8Chassis : GNode := ⟨2, "Base_Chassis", [("chassis_id", .str "C")]⟩

/-- Mission node of the relationship-operation example database. -/
def c8Mission : GNode := ⟨3, "Mission_Profile", [("mission_id", .str "M")]⟩

/-- Constraint node of the relationship-operation example database. -/
def c8Constraint : GNode := ⟨4, "Constraint", [("constraint_id", .str "K")]⟩

/-- Example database with one node of each endpoint type. -/
def c8Graph : Graph :=
  ⟨[c8Module1, c8Module2, c8Chassis, c8Mission, c8Constraint], [], 5⟩

/-- Concrete instances of `relationship_ops_contract`: for each of the five
operations, one resolving call that creates its single edge and returns true,
and one call with a missing endpoint that leaves the graph unchanged and
returns false. -/
theorem relationship_ops_contract_witness :
    (mount_module_on_chassis c8Graph "A" "C" "s1" (0, 0, 0) =
      (⟨c8Graph.nodes, c8Graph.edges ++ [⟨"MOUNTED_ON", 0, 2,
          [("slot", .str "s1"), ("position_x", .num 0),
           ("position_y", .num 0), ("position_z", .num 0)]⟩],
        c8Graph.nextId⟩, true)) ∧
    (mount_module_on_chassis c8Graph "Z" "C" "s1" (0, 0, 0) =
      (c8Graph, false)) ∧
    (add_module_to_mission c8Graph "A" "M" =
      (⟨c8Graph.nodes, c8Graph.edges ++ [⟨"PART_OF_MISSION", 0, 3, []⟩],
        c8Graph.nextId⟩, true)) ∧
    (add_module_to_mission c8Graph "Z" "ZZ" = (c8Graph, false)) ∧
    (add_constraint_to_module c8Graph "A" "K" =
      (⟨c8Graph.nodes, c8Graph.edges ++ [⟨"CONSTRAINED_BY", 0, 4, []⟩],
        c8Graph.nextId⟩, true)) ∧
    (add_constraint_to_module c8Graph "Z" "K" = (c8Graph, false)) ∧
    (mark_compatible c8Graph "A" "B" =
      (⟨c8Graph.nodes, c8Graph.edges ++ [⟨"COMPATIBLE_WITH", 0, 1, []⟩],
        c8Graph.nextId⟩, true)) ∧
    (mark_compatible c8Graph "A" "Z" = (c8Graph, false)) ∧
    (mark_conflict c8Graph "A" "B" "overlap" =
      (⟨c8Graph.nodes, c8Graph.edges ++ [⟨"CONFLICTS_WITH", 0, 1,
          [("reason", .str "overlap")]⟩],
        c8Graph.nextId⟩, true)) ∧
    (mark_conflict c8Graph "Z" "B" "overlap" = (c8Graph, false)) :=
  ⟨((relationship_ops_contract c8Graph "A" "C" "M" "K" "A" "B" "s1" "overlap"
      (0, 0, 0)).1.2 c8Module1 c8Chassis (by decide) (by decide)),
   ((relationship_ops_contract c8Graph "Z" "C" "ZZ" "K" "A" "Z" "s1" "overlap"
      (0, 0, 0)).1.1 (Or.inl (by decide))),
   ((relationship_ops_contract c8Graph "A" "C" "M" "K" "A" "B" "s1" "overlap"
      (0, 0, 0)).2.1.2 c8Module1 c8Mission (by decide) (by decide)),
   ((relationship_ops_contract c8Graph "Z" "C" "ZZ" "K" "A" "Z" "s1" "overlap"
      (0, 0, 0)).2.1.1 (Or.inl (by decide))),
   ((relationship_ops_contract c8Graph "A" "C" "M" "K" "A" "B" "s1" "overlap"
      (0, 0, 0)).2.2.1.2 c8Module1 c8Constraint (by decide) (by decide)),
   ((relationship_ops_contract c8Graph "Z" "C" "ZZ" "K" "A" "Z" "s1" "overlap"
      (0, 0, 0)).2.2.1.1 (Or.inl (by decide))),
   ((relationship_ops_contract c8Graph "A" "C" "M" "K" "A" "B" "s1" "overlap"
      (0, 0, 0)).2.2.2.1.2 c8Module1 c8Module2 (by decide) (by decide)),
   ((relationship_ops_contract c8Graph "Z" "C" "ZZ" "K" "A" "Z" "s1" "overlap"
      (0, 0, 0)).2.2.2.1.1 (Or.inr (by decide))),
   ((relationship_ops_contract c8Graph "A" "C" "M" "K" "A" "B" "s1" "overlap"
      (0, 0, 0)).2.2.2.2.2 c8Module1 c8Module2 (by decide) (by decide)),
   ((relationship_ops_contract c8Graph "Z" "C" "ZZ" "K" "Z" "B" "s1" "overlap"
      (0, 0, 0)).2.2.2.2.1 (Or.inl (by decide)))⟩

/-- Mission linking two distinct modules, one membership edge each. -/
def c3Graph : Graph :=
  ⟨[⟨0, "Mission_Profile", [("mission_id", .str "MX")]⟩,
    ⟨1, "UGV_Module", [("module_id", .str "A")]⟩,
    ⟨2, "UGV_Module", [("module_id", .str "B")]⟩],
   [⟨"PART_OF_MISSION", 1, 0, []⟩, ⟨"PART_OF_MISSION", 2, 0, []⟩], 3⟩

/-- C3 counterexample: this mission links exactly 2 distinct modules, so the
claim demands 2·(2−1)/2 = 1 pair record, but the call produces no record at
all: the WHERE-after-UNWIND statement is rejected by the engine and the
method raises. -/
theorem get_mission_compatibility_error_counterexample :
    get_mission_compatibility c3Graph "MX" =
      Except.error compatibilityQueryError :=
  rfl

/-- C3 (amended): `get_mission_compatibility` produces no pair records for
any mission: every call fails with the engine rejection of the WHERE clause
standing directly after UNWIND, identically for every graph and every
mission id. -/
theorem get_mission_compatibility_always_error (g g2 : Graph)
    (mission_id mission_id2 : String) :
    get_mission_compatibility g mission_id =
      Except.error compatibilityQueryError ∧
    get_mission_compatibility g mission_id =
      get_mission_compatibility g2 mission_id2 :=
  ⟨rfl, rfl⟩

/-- Module A of the contradictory-pair example. -/
def c5A : GNode := ⟨1, "UGV_Module", [("module_id", .str "A")]⟩

/-- Module B of the contradictory-pair example. -/
def c5B : GNode := ⟨2, "UGV_Module", [("module_id", .str "B")]⟩

/-- The conflict edge of the contradictory-pair example. -/
def c5Conf : GEdge :=
  ⟨"CONFLICTS_WITH", 1, 2, [("reason", .str "power rail clash")]⟩

/-- The compatible edge of the contradictory-pair example. -/
def c5Compat : GEdge := ⟨"COMPATIBLE_WITH", 1, 2, []⟩

/-- Mission with two modules marked both compatible and conflicting. -/
def c5Graph : Graph :=
  ⟨[⟨0, "Mission_Profile", [("mission_id", .str "MC")]⟩, c5A, c5B],
   [⟨"PART_OF_MISSION", 1, 0, []⟩, ⟨"PART_OF_MISSION", 2, 0, []⟩,
    c5Conf, c5Compat], 3⟩

/-- C5 counterexample: this mission pair carries both a CONFLICTS_WITH and a
COMPATIBLE_WITH edge from the lower internal id to the higher, and the claim
demands a crash-free CONFLICT classification — but the call raises the
syntax error instead of reporting the pair at all. -/
theorem get_mission_compatibility_conflict_pair_counterexample :
    confEdges c5Graph c5A c5B = [c5Conf] ∧
    compatEdges c5Graph c5A c5B = [c5Compat] ∧
    c5A.nid < c5B.nid ∧
    get_mission_compatibility c5Graph "MC" =
      Except.error compatibilityQueryError :=
  ⟨by decide, by decide, by decide, rfl⟩

/-- C5 (amended): when both a CONFLICTS_WITH and a COMPATIBLE_WITH edge run
from the lower-internal-id module of a mission pair to the higher, the
analysis reports nothing for the pair: the call fails with the engine
rejection of the invalid WHERE placement before the CASE precedence
expression could ever execute. -/
theorem get_mission_compatibility_conflict_pair_error (g : Graph)
    (mission_id : String) (a b : GNode) (ec ek : GEdge)
    (ha : a ∈ (missionMemberRows g mission_id).map fun r => r.1)
    (hb : b ∈ (missionMemberRows g mission_id).map fun r => r.1)
    (hab : a.nid < b.nid)
    (hc : ec ∈ confEdges g a b) (hk : ek ∈ compatEdges g a b) :
    get_mission_compatibility g mission_id =
      Except.error compatibilityQueryError :=
  rfl

/-- Concrete instance of `get_mission_compatibility_conflict_pair_error` at
the contradictory pair of `c5Graph`. -/
theorem get_mission_compatibility_conflict_pair_error_witness :
    (c5A ∈ (missionMemberRows c5Graph "MC").map fun r => r.1) ∧
    (c5B ∈ (missionMemberRows c5Graph "MC").map fun r => r.1) ∧
    c5A.nid < c5B.nid ∧
    c5Conf ∈ confEdges c5Graph c5A c5B ∧
    c5Compat ∈ compatEdges c5Graph c5A c5B ∧
    get_mission_compatibility c5Graph "MC" =
      Except.error compatibilityQueryError :=
  ⟨by decide, by decide, by decide, by decide, by decide,
   get_mission_compatibility_conflict_pair_error c5Graph "MC" c5A c5B c5Conf
     c5Compat (by decide) (by decide) (by decide) (by decide) (by decide)⟩
